import Mathlib

/-!
Shallow embedding of the ccl-ssns Chrome SNSS / tab-state decoder
(`ccl_chrome_pickle.py`, `ccl_chrome_tab_state.py`, `Chrome-SNSS-Parse-OS.py`).

Each Python function is translated into an executable Lean definition over an
explicit byte-stream state.  Python exceptions are modelled by an error type
`PyErr` carried in `Except`; Python's `bytes` are `List Nat` (each element a
byte value); the reader's single "current value" slot is the inductive
`Current`, which covers every Python value the slot can hold.  Decoded text is
kept as its underlying code-unit bytes (no claim inspects characters); the
validity checks that make Python's `bytes.decode` raise are modelled exactly.
-/

namespace Ssns

/-- Python exception outcomes of the decoder, one constructor per raise site
(or per exception class where the site is unambiguous). -/
inductive PyErr where
  /-- Python `EOFError` (pickle length read, `read_string_vector_from_page_state_pickle`,
  `PageState.from_pickle` version read). -/
  | eofError
  /-- Python `struct.error` escaping uncaught (e.g. a truncated SNSS file header). -/
  | structError
  /-- Python `ValueError("Declared pickle length not equal to blob length")`. -/
  | pickleLengthError
  /-- Python `ValueError("invalid PageState Version")`. -/
  | invalidPageStateVersion
  /-- Python `ValueError("Invalid WebHTTPBody::Element::Element type")`. -/
  | invalidHttpBodyElementType
  /-- Python `KeyError` from an unmapped core transition byte. -/
  | keyError
  /-- Python `TypeError` (operating on `None` where an int/bytes was required). -/
  | typeError
  /-- Python `AssertionError` from `assert len(pickle_reader.current) == 8`. -/
  | assertionError
  /-- Python `IndexError` from `command_buffer.read(1)[0]` on an empty payload. -/
  | indexError
  /-- Python `SsnsError` raised for a truncated command payload. -/
  | ssnsError
  /-- The fatal `exit(1)` after the SNSS magic-mismatch diagnostic. -/
  | invalidSnssMagic
  /-- Python `UnicodeDecodeError` from `bytes.decode` on malformed text. -/
  | unicodeDecodeError
  /-- Python `OverflowError` from a `datetime` outside year range 1..9999. -/
  | overflowError
  /-- Python `ValueError("Too short to be Blink serialized form state version")`. -/
  | formStateTooShort
  /-- Python `ValueError("Not a Blink serialized form state version 9")`. -/
  | notBlinkFormState
  /-- Python `StopIteration` escaping from `reader.__next__()` mid-item. -/
  | stopIteration
  /-- Python `ValueError` from `int()` on a non-numeric token. -/
  | intParseError
  /-- Python `ValueError("Field: ... couldn't be read.")` from the deserialise helpers. -/
  | fieldMissing
  /-- Artificial bound on recursion depth used to make the Lean model total;
  the Python source recurses without a bound.  All theorems quantify over it. -/
  | recursionLimit
deriving DecidableEq

/-- Little-endian value of a byte list (as `struct.unpack` sees the bytes). -/
def leNat (bs : List Nat) : Nat :=
  bs.foldr (fun b acc => b % 256 + 256 * acc) 0

/-- Two's-complement reinterpretation of a `w`-bit unsigned value. -/
def toSigned (w : Nat) (n : Nat) : Int :=
  if n < 2 ^ (w - 1) then (n : Int) else (n : Int) - 2 ^ w

/-- Python `struct.unpack("<h", bs[0:2])`. -/
def decodeI16 (bs : List Nat) : Int := toSigned 16 (leNat (bs.take 2))

/-- Python `struct.unpack("<H", bs[0:2])`. -/
def decodeU16 (bs : List Nat) : Nat := leNat (bs.take 2)

/-- Python `struct.unpack("<i", bs)` for a 4-byte list. -/
def decodeI32 (bs : List Nat) : Int := toSigned 32 (leNat bs)

/-- Python `struct.unpack("<I", bs)` for a 4-byte list. -/
def decodeU32 (bs : List Nat) : Nat := leNat bs

/-- Python `struct.unpack("<q", bs)` for an 8-byte list. -/
def decodeI64 (bs : List Nat) : Int := toSigned 64 (leNat bs)

/-- Python `struct.unpack("<Q", bs)` for an 8-byte list. -/
def decodeU64 (bs : List Nat) : Nat := leNat bs

/-- An `io.BytesIO` over an immutable byte buffer: the buffer plus a cursor.
The cursor may sit past the end of the buffer (Python allows seeking there). -/
structure ByteStream where
  data : List Nat
  pos : Nat
deriving DecidableEq

namespace ByteStream

/-- Bytes left between the cursor and the end of the buffer. -/
def remaining (s : ByteStream) : Nat := s.data.length - s.pos

/-- Python `stream.read(n)`: returns up to `n` bytes and advances the cursor by the
number of bytes actually returned. -/
def read (s : ByteStream) (n : Nat) : List Nat × ByteStream :=
  let chunk := (s.data.drop s.pos).take n
  (chunk, ⟨s.data, s.pos + chunk.length⟩)

/-- Python `stream.seek(k, 1)` for `k ≥ 0`: move the cursor forward. -/
def seekForward (s : ByteStream) (k : Nat) : ByteStream := ⟨s.data, s.pos + k⟩

theorem read_fst (s : ByteStream) (n : Nat) :
    (s.read n).1 = (s.data.drop s.pos).take n := rfl

theorem read_fst_length (s : ByteStream) (n : Nat) :
    (s.read n).1.length = min n s.remaining := by
  simp [read, remaining, List.length_take, List.length_drop]

theorem read_snd_pos (s : ByteStream) (n : Nat) :
    (s.read n).2.pos = s.pos + min n s.remaining := by
  simp [read, remaining, List.length_take, List.length_drop]

end ByteStream

/-- Validity of a byte sequence as UTF-8, as checked by Python's strict
`bytes.decode("utf-8")`: rejects overlong forms, surrogates and values
above U+10FFFF. -/
def validUtf8 : List Nat → Bool
  | [] => true
  | b :: rest =>
    if b ≤ 0x7F then validUtf8 rest
    else if 0xC2 ≤ b ∧ b ≤ 0xDF then
      match rest with
      | c1 :: r => (0x80 ≤ c1 && c1 ≤ 0xBF) && validUtf8 r
      | _ => false
    else if b = 0xE0 then
      match rest with
      | c1 :: c2 :: r =>
        (0xA0 ≤ c1 && c1 ≤ 0xBF) && (0x80 ≤ c2 && c2 ≤ 0xBF) && validUtf8 r
      | _ => false
    else if (0xE1 ≤ b ∧ b ≤ 0xEC) ∨ b = 0xEE ∨ b = 0xEF then
      match rest with
      | c1 :: c2 :: r =>
        (0x80 ≤ c1 && c1 ≤ 0xBF) && (0x80 ≤ c2 && c2 ≤ 0xBF) && validUtf8 r
      | _ => false
    else if b = 0xED then
      match rest with
      | c1 :: c2 :: r =>
        (0x80 ≤ c1 && c1 ≤ 0x9F) && (0x80 ≤ c2 && c2 ≤ 0xBF) && validUtf8 r
      | _ => false
    else if b = 0xF0 then
      match rest with
      | c1 :: c2 :: c3 :: r =>
        (0x90 ≤ c1 && c1 ≤ 0xBF) && (0x80 ≤ c2 && c2 ≤ 0xBF) &&
          (0x80 ≤ c3 && c3 ≤ 0xBF) && validUtf8 r
      | _ => false
    else if 0xF1 ≤ b ∧ b ≤ 0xF3 then
      match rest with
      | c1 :: c2 :: c3 :: r =>
        (0x80 ≤ c1 && c1 ≤ 0xBF) && (0x80 ≤ c2 && c2 ≤ 0xBF) &&
          (0x80 ≤ c3 && c3 ≤ 0xBF) && validUtf8 r
      | _ => false
    else if b = 0xF4 then
      match rest with
      | c1 :: c2 :: c3 :: r =>
        (0x80 ≤ c1 && c1 ≤ 0x8F) && (0x80 ≤ c2 && c2 ≤ 0xBF) &&
          (0x80 ≤ c3 && c3 ≤ 0xBF) && validUtf8 r
      | _ => false
    else false

/-- Validity of a byte sequence as UTF-16-LE, as checked by Python's strict
`bytes.decode("utf-16-le")`: an even byte count and correctly paired
surrogates. -/
def validUtf16le : List Nat → Bool
  | [] => true
  | [_] => false
  | lo :: hi :: rest =>
    let u := lo % 256 + 256 * (hi % 256)
    if 0xD800 ≤ u ∧ u ≤ 0xDBFF then
      match rest with
      | lo2 :: hi2 :: r =>
        let u2 := lo2 % 256 + 256 * (hi2 % 256)
        (0xDC00 ≤ u2 && u2 ≤ 0xDFFF) && validUtf16le r
      | _ => false
    else if 0xDC00 ≤ u ∧ u ≤ 0xDFFF then false
    else validUtf16le rest

/-- The possible contents of a `PickleReader`'s single `current` slot (and of
every decoded field derived from it).  `str`/`str16` keep the code-unit bytes
of a successfully decoded text; `float` keeps the IEEE-754 bit pattern;
`timestamp` keeps microseconds since 1601-01-01; `pickle` keeps the backing
buffer (length prefix included) of a nested reader. -/
inductive Current where
  | none
  | int (i : Int)
  | bool (b : Bool)
  | blob (bs : List Nat)
  | str (bs : List Nat)
  | str16 (bs : List Nat)
  | float (bits : Nat)
  | timestamp (micros : Int)
  | pickle (bs : List Nat)
deriving DecidableEq

/-- Python truthiness of a `current` value (`if not pickle_reader.current`,
`if page_state_blob:` and similar tests). -/
def Current.truthy : Current → Bool
  | .none => false
  | .int i => i ≠ 0
  | .bool b => b
  | .blob bs => !bs.isEmpty
  | .str bs => !bs.isEmpty
  | .str16 bs => !bs.isEmpty
  | .float bits => bits ≠ 0 && bits ≠ 0x8000000000000000
  | .timestamp _ => true
  | .pickle _ => true

/-- The `PickleType` enumeration of `ccl_chrome_pickle.py`. -/
inductive PickleType where
  | Bool
  | Int16
  | UInt16
  | Int32
  | UInt32
  | Int64
  | UInt64
  | Single
  | Double
  | Blob
  | String
  | String16
  | DateTime
  | Pickle
  | String16ByteCount
deriving DecidableEq

/-- State of a `PickleReader`: the wrapped `BytesIO`, the declared pickle
length, the current-value slot and the total buffer length. -/
structure PickleReader where
  stream : ByteStream
  pickle_length : Int
  current : Current
  length : Nat
deriving DecidableEq

namespace PickleReader

/-- Python `PickleReader.__init__`: read the 4-byte length prefix and require it to
equal the buffer length minus 4. -/
def init? (blob : List Nat) : Except PyErr PickleReader :=
  let r := ByteStream.read ⟨blob, 0⟩ 4
  if r.1.length = 4 then
    let declared := decodeI32 r.1
    if (blob.length : Int) - 4 ≠ declared then .error .pickleLengthError
    else .ok ⟨r.2, declared, .none, blob.length⟩
  else .error .eofError

/-- Python `_read_int16`: read 4 bytes, take the value from the first 2.
`struct.error` (fewer than 2 bytes obtained) is reported as `none`; the
cursor stays where the read left it. -/
def readRawI16 (s : ByteStream) : Option Int × ByteStream :=
  let r := s.read 4
  (if 2 ≤ r.1.length then some (decodeI16 r.1) else Option.none, r.2)

/-- Python `_read_uint16`: as `readRawI16` but unsigned. -/
def readRawU16 (s : ByteStream) : Option Int × ByteStream :=
  let r := s.read 4
  (if 2 ≤ r.1.length then some ((decodeU16 r.1 : Int)) else Option.none, r.2)

/-- Python `_read_int32`. -/
def readRawI32 (s : ByteStream) : Option Int × ByteStream :=
  let r := s.read 4
  (if r.1.length = 4 then some (decodeI32 r.1) else Option.none, r.2)

/-- Python `_read_uint32`. -/
def readRawU32 (s : ByteStream) : Option Int × ByteStream :=
  let r := s.read 4
  (if r.1.length = 4 then some ((decodeU32 r.1 : Int)) else Option.none, r.2)

/-- Python `_read_int64`. -/
def readRawI64 (s : ByteStream) : Option Int × ByteStream :=
  let r := s.read 8
  (if r.1.length = 8 then some (decodeI64 r.1) else Option.none, r.2)

/-- Python `_read_uint64`. -/
def readRawU64 (s : ByteStream) : Option Int × ByteStream :=
  let r := s.read 8
  (if r.1.length = 8 then some ((decodeU64 r.1 : Int)) else Option.none, r.2)

/-- Python `_read_single`: 4 bytes of IEEE-754 bits. -/
def readRawF32 (s : ByteStream) : Option Nat × ByteStream :=
  let r := s.read 4
  (if r.1.length = 4 then some (leNat r.1) else Option.none, r.2)

/-- Python `_read_double`: 8 bytes of IEEE-754 bits. -/
def readRawF64 (s : ByteStream) : Option Nat × ByteStream :=
  let r := s.read 8
  (if r.1.length = 8 then some (leNat r.1) else Option.none, r.2)

/-- Python `_read_raw`: read `length` bytes (a negative request reads to the end of
the buffer, as `BytesIO.read` does), fail with `EOFError` when fewer arrive,
and on success align the cursor to the next 4-byte boundary. -/
def readRaw (s : ByteStream) (length : Int) : Option (List Nat) × ByteStream :=
  let n : Nat := if length < 0 then s.remaining else length.toNat
  let r := s.read n
  if (r.1.length : Int) < length then (Option.none, r.2)
  else
    let alignment : Int := if length % 4 = 0 then 0 else 4 - length % 4
    (some r.1, r.2.seekForward alignment.toNat)

/-- Python `read_short`. -/
def read_short (r : PickleReader) : Bool × PickleReader :=
  match readRawI16 r.stream with
  | (some v, s) => (true, ⟨s, r.pickle_length, .int v, r.length⟩)
  | (Option.none, s) => (false, ⟨s, r.pickle_length, .none, r.length⟩)

/-- Python `read_ushort`. -/
def read_ushort (r : PickleReader) : Bool × PickleReader :=
  match readRawU16 r.stream with
  | (some v, s) => (true, ⟨s, r.pickle_length, .int v, r.length⟩)
  | (Option.none, s) => (false, ⟨s, r.pickle_length, .none, r.length⟩)

/-- Python `read_int`. -/
def read_int (r : PickleReader) : Bool × PickleReader :=
  match readRawI32 r.stream with
  | (some v, s) => (true, ⟨s, r.pickle_length, .int v, r.length⟩)
  | (Option.none, s) => (false, ⟨s, r.pickle_length, .none, r.length⟩)

/-- Python `read_uint`. -/
def read_uint (r : PickleReader) : Bool × PickleReader :=
  match readRawU32 r.stream with
  | (some v, s) => (true, ⟨s, r.pickle_length, .int v, r.length⟩)
  | (Option.none, s) => (false, ⟨s, r.pickle_length, .none, r.length⟩)

/-- Python `read_long`. -/
def read_long (r : PickleReader) : Bool × PickleReader :=
  match readRawI64 r.stream with
  | (some v, s) => (true, ⟨s, r.pickle_length, .int v, r.length⟩)
  | (Option.none, s) => (false, ⟨s, r.pickle_length, .none, r.length⟩)

/-- Python `read_ulong`. -/
def read_ulong (r : PickleReader) : Bool × PickleReader :=
  match readRawU64 r.stream with
  | (some v, s) => (true, ⟨s, r.pickle_length, .int v, r.length⟩)
  | (Option.none, s) => (false, ⟨s, r.pickle_length, .none, r.length⟩)

/-- Python `read_bool`: an int32 compared against zero. -/
def read_bool (r : PickleReader) : Bool × PickleReader :=
  match readRawI32 r.stream with
  | (some v, s) => (true, ⟨s, r.pickle_length, .bool (v ≠ 0), r.length⟩)
  | (Option.none, s) => (false, ⟨s, r.pickle_length, .none, r.length⟩)

/-- Python `read_single`. -/
def read_single (r : PickleReader) : Bool × PickleReader :=
  match readRawF32 r.stream with
  | (some bits, s) => (true, ⟨s, r.pickle_length, .float bits, r.length⟩)
  | (Option.none, s) => (false, ⟨s, r.pickle_length, .none, r.length⟩)

/-- Python `read_double`. -/
def read_double (r : PickleReader) : Bool × PickleReader :=
  match readRawF64 r.stream with
  | (some bits, s) => (true, ⟨s, r.pickle_length, .float bits, r.length⟩)
  | (Option.none, s) => (false, ⟨s, r.pickle_length, .none, r.length⟩)

/-- Microsecond range for which `datetime.datetime(1601, 1, 1) +
datetime.timedelta(microseconds=x)` stays inside `datetime`'s year range
1..9999: ordinal day 584389 (1601-01-01) may move back at most 584388 days
and forward to the last microsecond of ordinal day 3652059 (9999-12-31). -/
def timestampInRange (x : Int) : Bool :=
  -50491123200000000 ≤ x ∧ x ≤ 265046774399999999

/-- Python `read_timestamp`: an int64 of microseconds turned into a `datetime`;
an out-of-range value makes the `datetime` arithmetic raise `OverflowError`. -/
def read_timestamp (r : PickleReader) : Except PyErr (Bool × PickleReader) :=
  match readRawI64 r.stream with
  | (some x, s) =>
    if timestampInRange x then
      .ok (true, ⟨s, r.pickle_length, .timestamp x, r.length⟩)
    else .error .overflowError
  | (Option.none, s) => .ok (false, ⟨s, r.pickle_length, .none, r.length⟩)

/-- Python `read_blob`: an int32 length (`-1` means "absent": success with a cleared
slot), then that many bytes (doubled when `is_doubled_length`), aligned. -/
def read_blob (r : PickleReader) (is_doubled_length : Bool) : Bool × PickleReader :=
  match readRawI32 r.stream with
  | (Option.none, s) => (false, ⟨s, r.pickle_length, .none, r.length⟩)
  | (some len, s) =>
    if len = -1 then (true, ⟨s, r.pickle_length, .none, r.length⟩)
    else
      match readRaw s (len * (if is_doubled_length then 2 else 1)) with
      | (Option.none, s') => (false, ⟨s', r.pickle_length, .none, r.length⟩)
      | (some bs, s') => (true, ⟨s', r.pickle_length, .blob bs, r.length⟩)

/-- Python `read_str`: a blob decoded as UTF-8; malformed bytes raise. -/
def read_str (r : PickleReader) : Except PyErr (Bool × PickleReader) :=
  let res := r.read_blob false
  if res.1 then
    match res.2.current with
    | .blob bs =>
      if validUtf8 bs then
        .ok (true, { res.2 with current := .str bs })
      else .error .unicodeDecodeError
    | _ => .ok (res.1, res.2)
  else .ok (res.1, res.2)

/-- Python `read_str16_with_byte_count`: a byte-count blob decoded as UTF-16-LE. -/
def read_str16_with_byte_count (r : PickleReader) : Except PyErr (Bool × PickleReader) :=
  let res := r.read_blob false
  if res.1 then
    match res.2.current with
    | .blob bs =>
      if validUtf16le bs then
        .ok (true, { res.2 with current := .str16 bs })
      else .error .unicodeDecodeError
    | _ => .ok (res.1, res.2)
  else .ok (res.1, res.2)

/-- Python `read_str16_with_char_count`: a char-count (doubled-length) blob decoded
as UTF-16-LE. -/
def read_str16_with_char_count (r : PickleReader) : Except PyErr (Bool × PickleReader) :=
  let res := r.read_blob true
  if res.1 then
    match res.2.current with
    | .blob bs =>
      if validUtf16le bs then
        .ok (true, { res.2 with current := .str16 bs })
      else .error .unicodeDecodeError
    | _ => .ok (res.1, res.2)
  else .ok (res.1, res.2)

/-- Python `read_pickle`: a 4-byte length then that many bytes, wrapped (with the
re-prepended length) as a nested reader, recorded by its backing buffer. -/
def read_pickle (r : PickleReader) : Bool × PickleReader :=
  let r4 := r.stream.read 4
  if r4.1.length ≠ 4 then (false, ⟨r4.2, r.pickle_length, .none, r.length⟩)
  else
    let len := decodeI32 r4.1
    let rp := r4.2.read (if len < 0 then r4.2.remaining else len.toNat)
    if (rp.1.length : Int) ≠ len then (false, ⟨rp.2, r.pickle_length, .none, r.length⟩)
    else (true, ⟨rp.2, r.pickle_length, .pickle (r4.1 ++ rp.1), r.length⟩)

end PickleReader

/-- The `_func_lookup` table: the read operation for each `PickleType`. -/
def funcLookup : PickleType → PickleReader → Except PyErr (Bool × PickleReader)
  | .Bool, r => .ok r.read_bool
  | .Int16, r => .ok r.read_short
  | .UInt16, r => .ok r.read_ushort
  | .Int32, r => .ok r.read_int
  | .UInt32, r => .ok r.read_uint
  | .Int64, r => .ok r.read_long
  | .UInt64, r => .ok r.read_ulong
  | .Single, r => .ok r.read_single
  | .Double, r => .ok r.read_double
  | .Blob, r => .ok (r.read_blob false)
  | .String, r => r.read_str
  | .String16, r => r.read_str16_with_char_count
  | .DateTime, r => r.read_timestamp
  | .Pickle, r => .ok r.read_pickle
  | .String16ByteCount, r => r.read_str16_with_byte_count

/-- A Python `dict` keyed by field names, in insertion order. -/
abbrev FieldDict := List (String × Current)

/-- Python `result[field] = value`: update an existing key in place, otherwise
append at the end (Python dicts preserve insertion order). -/
def dictSet (d : FieldDict) (k : String) (v : Current) : FieldDict :=
  if d.any (fun p => p.1 = k) then
    d.map (fun p => if p.1 = k then (k, v) else p)
  else d ++ [(k, v)]

/-- Python `field in result`. -/
def dictContains (d : FieldDict) (k : String) : Bool :=
  d.any (fun p => p.1 = k)

/-- Python `result.get(field, default)`. -/
def dictGetD (d : FieldDict) (k : String) (dflt : Current) : Current :=
  match d.find? (fun p => p.1 = k) with
  | some p => p.2
  | Option.none => dflt

/-- One step of `PickleReader.deserialise_into_dict`: perform the typed read,
optionally fail hard, and store the current value unless an earlier value for
the same key would be overwritten by a failed read. -/
def deserialiseStep (raise_on_missing : Bool) (acc : FieldDict × PickleReader)
    (f : String × PickleType) : Except PyErr (FieldDict × PickleReader) := do
  let res ← funcLookup f.2 acc.2
  if !res.1 ∧ raise_on_missing then throw .fieldMissing
  else
    let d := if !dictContains acc.1 f.1 ∨ res.1
      then dictSet acc.1 f.1 res.2.current else acc.1
    pure (d, res.2)

/-- Python `PickleReader.deserialise_into_dict`. -/
def deserialise_into_dict (r : PickleReader) (fields : List (String × PickleType))
    (raise_on_missing : Bool) : Except PyErr (FieldDict × PickleReader) :=
  fields.foldlM (deserialiseStep raise_on_missing) ([], r)

/-- Python `IS_ANDROID` module constant of `ccl_chrome_tab_state.py`. -/
def IS_ANDROID : Bool := true

/-- Python `ChromeTransition._core_transitions`: the 11-entry core-kind table keyed
by the low byte. -/
def coreTransitions : Nat → Option String
  | 0 => some "Link"
  | 1 => some "Typed"
  | 2 => some "AutoBookmark"
  | 3 => some "AutoSubframe"
  | 4 => some "ManualSubframe"
  | 5 => some "Generated"
  | 6 => some "AutoToplevel"
  | 7 => some "FormSubmit"
  | 8 => some "Reload"
  | 9 => some "Keyword"
  | 10 => some "KeywordGenerated"
  | _ => Option.none

/-- Python `ChromeTransition._qualifiers`, in the dict's insertion (= iteration)
order. -/
def qualifierFlags : List (Nat × String) :=
  [(0x00800000, "Blocked"),
   (0x01000000, "ForwardBack"),
   (0x02000000, "FromAddressBar"),
   (0x04000000, "HomePage"),
   (0x08000000, "FromApi"),
   (0x10000000, "ChainStart"),
   (0x20000000, "ChainEnd"),
   (0x40000000, "ClientRedirect"),
   (0x80000000, "ServerRedirect")]

/-- A decoded `ChromeTransition`: the raw value as given, the core kind name
and the qualifier names in table order. -/
structure ChromeTransition where
  value : Int
  core_transition : String
  qualifiers : List String
deriving DecidableEq

/-- Python `ChromeTransition.__init__`: add `2 * 0x80000000` to a negative value,
look the low byte up in the core table (`KeyError` when unmapped) and gather
the qualifier flags set among the high 24 bits.  Python's bitwise `&` on
a possibly negative int acts on its two's complement, so `v & 0xff` is
`v % 256` and `v & 0xffffff00` keeps bits 8..31 of `v % 2^32`. -/
def ChromeTransition.init (value : Int) : Except PyErr ChromeTransition :=
  let v : Int := if value < 0 then value + 0x80000000 * 2 else value
  let coreKey : Nat := (v % 256).toNat
  let masked : Nat := ((v % 4294967296).toNat / 256) * 256
  match coreTransitions coreKey with
  | Option.none => .error .keyError
  | some core =>
    .ok ⟨value, core,
      (qualifierFlags.filter (fun f => 0 < Nat.land masked f.1)).map (fun f => f.2)⟩

/-- Python `read_string_vector_from_page_state_pickle`'s element loop: `count`
byte-count UTF-16 strings, each appended as the current value (which may be
`None` for an "absent" string); a failed read raises `EOFError`. -/
def readStringVectorLoop : Nat → PickleReader → List Current →
    Except PyErr (List Current × PickleReader)
  | 0, r, acc => .ok (acc.reverse, r)
  | n + 1, r, acc => do
    let res ← r.read_str16_with_byte_count
    if !res.1 then throw .eofError
    else readStringVectorLoop n res.2 (res.2.current :: acc)

/-- Python `read_string_vector_from_page_state_pickle`. -/
def read_string_vector_from_page_state_pickle (r : PickleReader) :
    Except PyErr (List Current × PickleReader) := do
  let res := r.read_int
  if !res.1 then throw .eofError
  else
    match res.2.current with
    | .int count => readStringVectorLoop count.toNat res.2 []
    | _ => throw .typeError

/-- Python `read_double_from_page_state_pickle`: a blob that must hold exactly 8
bytes (`assert`), reinterpreted as a little-endian IEEE-754 double.  A cleared
slot makes `len(...)` raise `TypeError`; a wrong length fails the assert. -/
def read_double_from_page_state_pickle (r : PickleReader) :
    Except PyErr (Current × PickleReader) := do
  let res := r.read_blob false
  match res.2.current with
  | .blob bs =>
    if bs.length = 8 then pure (.float (leNat bs), res.2)
    else throw .assertionError
  | _ => throw .typeError

/-- A decoded `HttpBody`. -/
structure HttpBody where
  body_data : List Current
  file_ranges : List (Current × Current × Current × Current)
  blobs : List Current
  identifier : Current
  contains_passwords : Current
  content_type : Current
deriving DecidableEq

/-- The element loop of `HttpBody.from_pickle`: an int32 type tag dispatches
each element; an unmapped tag (or a cleared slot) is a fatal `ValueError`. -/
def httpBodyElementsLoop (version : Int) :
    Nat → PickleReader → List Current →
      List (Current × Current × Current × Current) → List Current →
      Except PyErr ((List Current × List (Current × Current × Current × Current) ×
        List Current) × PickleReader)
  | 0, r, dat, files, blobs => .ok ((dat.reverse, files.reverse, blobs.reverse), r)
  | n + 1, r, dat, files, blobs => do
    let res := r.read_int
    match res.2.current with
    | .int body_type =>
      if body_type = 0 then
        let resB := res.2.read_blob false
        if resB.1 ∧ resB.2.current.truthy then
          httpBodyElementsLoop version n resB.2 (resB.2.current :: dat) files blobs
        else
          httpBodyElementsLoop version n resB.2 dat files blobs
      else if body_type = 1 ∨ body_type = 3 then do
        let resP ← if body_type = 1 then res.2.read_str16_with_byte_count
          else res.2.read_str
        let file_path := resP.2.current
        let resS := resP.2.read_long
        let file_start := resS.2.current
        let resL := resS.2.read_long
        let file_length := resL.2.current
        let resM ← read_double_from_page_state_pickle resL.2
        httpBodyElementsLoop version n resM.2 dat
          ((file_path, file_start, file_length, resM.1) :: files) blobs
      else if body_type = 2 then do
        let resB ← res.2.read_str
        if version ≥ 16 then
          httpBodyElementsLoop version n resB.2 dat files (resB.2.current :: blobs)
        else
          httpBodyElementsLoop version n resB.2 dat files blobs
      else throw .invalidHttpBodyElementType
    | _ => throw .invalidHttpBodyElementType

/-- Python `HttpBody.from_pickle`: a presence boolean (a falsy current value — an
explicit `false` or a cleared slot after exhaustion — means "no body"), then
the element list, a 64-bit identifier and, for version ≥ 12, the
"contains passwords" flag (`True` implicitly before that). -/
def HttpBody.from_pickle (r : PickleReader) (version : Int) :
    Except PyErr (Option HttpBody × PickleReader) := do
  let resB := r.read_bool
  if !resB.2.current.truthy then pure (Option.none, resB.2)
  else do
    let resC := resB.2.read_int
    match resC.2.current with
    | .int element_count => do
      let resE ← httpBodyElementsLoop version element_count.toNat resC.2 [] [] []
      let resI := resE.2.read_long
      let identifier := resI.2.current
      if version ≥ 12 then
        let resP := resI.2.read_bool
        pure (some ⟨resE.1.1, resE.1.2.1, resE.1.2.2, identifier,
          resP.2.current, .none⟩, resP.2)
      else
        pure (some ⟨resE.1.1, resE.1.2.1, resE.1.2.2, identifier,
          .bool true, .none⟩, resI.2)
    | _ => throw .typeError

/-- One discarded byte-count UTF-16 string (the `# skip redundant field`
statements of `FrameState.from_pickle`). -/
def skipStr16 (r : PickleReader) : Except PyErr PickleReader := do
  let res ← r.read_str16_with_byte_count
  pure res.2

/-- The version < 15 skip block after `target`: three redundant byte-count
strings and one double-via-blob. -/
def skipPre15 (r : PickleReader) : Except PyErr PickleReader := do
  let res1 ← r.read_str16_with_byte_count
  let res2 ← res1.2.read_str16_with_byte_count
  let res3 ← res2.2.read_str16_with_byte_count
  let res4 ← read_double_from_page_state_pickle res3.2
  pure res4.2

/-- The version ≥ 20 pinch-viewport scroll offset: two double-via-blob
values. -/
def readPinchViewport (r : PickleReader) :
    Except PyErr ((Current × Current) × PickleReader) := do
  let resPX ← read_double_from_page_state_pickle r
  let resPY ← read_double_from_page_state_pickle resPX.2
  pure ((resPX.1, resPY.1), resPY.2)

/-- The state-object string read when the presence boolean was truthy. -/
def readStateObject (r : PickleReader) : Except PyErr (Current × PickleReader) := do
  let resSO ← r.read_str16_with_byte_count
  pure (resSO.2.current, resSO.2)

/-- The mobile-platform version-11 skip: one double-via-blob and one bool. -/
def skipAndroid11 (r : PickleReader) : Except PyErr PickleReader := do
  let resSkip ← read_double_from_page_state_pickle r
  pure ((resSkip.2.read_bool).2)

/-- A decoded `FrameState` tree node. -/
inductive FrameState where
  | mk (version : Int) (url_string : Current) (target : Current)
      (scroll_offset : Current × Current) (referrer : Current)
      (document_state : List Current) (page_scale_factor : Current)
      (item_sequence_number : Current) (document_sequence_number : Current)
      (referrer_policy : Current)
      (pinch_viewport_scroll_offset : Current × Current)
      (scroll_restoration_type : Current) (state_object : Current)
      (http_body : Option HttpBody) (child_states : List FrameState)

/-- The ordered child list of a `FrameState`. -/
def FrameState.child_states : FrameState → List FrameState
  | .mk _ _ _ _ _ _ _ _ _ _ _ _ _ _ cs => cs

/-- The document-state list of a `FrameState`. -/
def FrameState.document_state : FrameState → List Current
  | .mk _ _ _ _ _ ds _ _ _ _ _ _ _ _ _ => ds

mutual

/-- Python `FrameState.from_pickle`: the version-gated field sequence of one frame
state node, ending in the recursive child list.  `fuel` bounds the (unbounded
in Python) recursion; every claim quantifies over it. -/
def FrameState.from_pickle : Nat → PickleReader → Int → Bool →
    Except PyErr (FrameState × PickleReader)
  | 0, _, _, _ => .error .recursionLimit
  | fuel + 1, r0, version, is_top => do
    let r := if version < 14 ∧ ¬is_top then (r0.read_int).2 else r0
    let resU ← r.read_str16_with_byte_count
    let url_string := resU.2.current
    let step19 := if version < 19 then skipStr16 resU.2 else pure resU.2
    let r ← step19
    let resT ← r.read_str16_with_byte_count
    let target := resT.2.current
    let step15 := if version < 15 then skipPre15 resT.2 else pure resT.2
    let r ← step15
    let resX := r.read_int
    let x := resX.2.current
    let resY := resX.2.read_int
    let y := resY.2.current
    let scroll_offset := (x, y)
    let r := if version < 15 then ((resY.2.read_bool).2.read_int).2 else resY.2
    let resR ← r.read_str16_with_byte_count
    let referrer := resR.2.current
    let resD ← read_string_vector_from_page_state_pickle resR.2
    let document_state := resD.1
    let resPS ← read_double_from_page_state_pickle resD.2
    let page_scale_factor := resPS.1
    let resI := resPS.2.read_long
    let item_sequence_number := resI.2.current
    let resDS := resI.2.read_long
    let document_sequence_number := resDS.2.current
    let r := if version ≥ 21 ∧ version < 23 then (resDS.2.read_long).2 else resDS.2
    let r := if version ≥ 17 ∧ version < 19 then (r.read_long).2 else r
    let rp := if version ≥ 18 then
        (let resRP := r.read_int; (resRP.2.current, resRP.2))
      else (Current.int (-1), r)
    let referrer_policy := rp.1
    let stepPinch := if version ≥ 20 then readPinchViewport rp.2
      else pure ((Current.int (-1), Current.int (-1)), rp.2)
    let pinch ← stepPinch
    let srt := if version ≥ 22 then
        (let resSR := pinch.2.read_int; (resSR.2.current, resSR.2))
      else (Current.int (-1), pinch.2)
    let resHS := srt.2.read_bool
    let stepSO := if resHS.2.current.truthy then readStateObject resHS.2
      else pure (Current.none, resHS.2)
    let so ← stepSO
    let resHB ← HttpBody.from_pickle so.2 version
    let resCT ← resHB.2.read_str16_with_byte_count
    let http_body := match resHB.1 with
      | some hb => some { hb with content_type := resCT.2.current }
      | Option.none => Option.none
    let step14 := if version < 14 then skipStr16 resCT.2 else pure resCT.2
    let r ← step14
    let stepA := if IS_ANDROID ∧ version = 11 then skipAndroid11 r else pure r
    let r ← stepA
    let resCC := r.read_int
    match resCC.2.current with
    | .int child_count => do
      let resCh ← FrameState.readChildren fuel child_count.toNat resCC.2 version
      pure (FrameState.mk version url_string target scroll_offset referrer
        document_state page_scale_factor item_sequence_number
        document_sequence_number referrer_policy pinch.1 srt.1 so.1
        http_body resCh.1, resCh.2)
    | _ => throw .typeError
termination_by fuel _ _ _ => (fuel, 0)

/-- The child loop of `FrameState.from_pickle`: `n` recursive decodes with
`is_top = False`, in order. -/
def FrameState.readChildren : Nat → Nat → PickleReader → Int →
    Except PyErr (List FrameState × PickleReader)
  | _, 0, r, _ => .ok ([], r)
  | fuel, n + 1, r, version => do
    let resC ← FrameState.from_pickle fuel r version false
    let resRest ← FrameState.readChildren fuel n resC.2 version
    pure (resC.1 :: resRest.1, resRest.2)
termination_by fuel n _ _ => (fuel, n + 1)

end

/-- A decoded `PageState`: either the legacy URL-only sentinel form (all of
`version`, `referenced_files`, `frame_state` are `None`) or the versioned
form. -/
structure PageState where
  version : Option Int
  referenced_files : Option (List Current)
  frame_state : Option FrameState
  url : Current

/-- Python `PageState.MIN_VERSION`. -/
def PageState.MIN_VERSION : Int := 11

/-- Python `PageState.CURRENT_VERSION`. -/
def PageState.CURRENT_VERSION : Int := 23

/-- Python `PageState.from_pickle`: a version int32 (`EOFError` when exhausted);
`-1` yields the legacy URL-only form after one string read; a version outside
`[MIN_VERSION, CURRENT_VERSION]` is a fatal `ValueError`; otherwise the
referenced-file vector (version ≥ 14 only) and the root frame state. -/
def PageState.from_pickle (fuel : Nat) (r : PickleReader) :
    Except PyErr (PageState × PickleReader) := do
  let resV := r.read_int
  if !resV.1 then throw .eofError
  else
    match resV.2.current with
    | .int version =>
      if version = -1 then do
        let resU ← resV.2.read_str
        pure (⟨Option.none, Option.none, Option.none, resU.2.current⟩, resU.2)
      else if version > PageState.CURRENT_VERSION ∨ version < PageState.MIN_VERSION then
        throw .invalidPageStateVersion
      else do
        let stepF := if version ≥ 14 then
            read_string_vector_from_page_state_pickle resV.2
          else pure ([], resV.2)
        let resF ← stepF
        let resFS ← FrameState.from_pickle fuel resF.2 version true
        pure (⟨some version, some resF.1, some resFS.1, .none⟩, resFS.2)
    | _ => throw .typeError

/-- A decoded `NavigationEntry`. -/
structure NavigationEntry where
  index : Current
  url : Current
  title : Current
  page_state : Option PageState
  transition_type : ChromeTransition
  type_mask : Current
  referrer_url : Current
  referrer_policy : Current
  original_request_url : Current
  is_overriding_user_agent : Current
  timestamp : Current
  search_terms : Current
  http_status_code : Current

/-- The `fields` tuple of `NavigationEntry.from_pickle`, in source order. -/
def NavigationEntry.fromPickleFields : List (String × PickleType) :=
  [("index", .Int32),
   ("url", .String),
   ("title", .String16),
   ("page_state_blob", .Blob),
   ("transition_type", .Int32),
   ("type_mask", .Int32),
   ("referrer_url", .String),
   ("referrer_policy", .Int32),
   ("original_request_url", .String),
   ("is_overriding_user_agent", .Bool),
   ("timestamp", .DateTime),
   ("search_terms", .String16),
   ("http_status_code", .Int32),
   ("referrer_policy", .Int32)]

/-- Python `NavigationEntry.__init__` applied to the keyword dict produced by
`deserialise_into_dict` (defaults as in the signature): a truthy
`page_state_blob` is re-wrapped as a nested pickle and decoded as a
`PageState`; the raw transition value is decoded as a `ChromeTransition`
(`None < 0` on a cleared slot raises `TypeError`). -/
def NavigationEntry.ofDict (fuel : Nat) (d : FieldDict) :
    Except PyErr NavigationEntry := do
  let page_state_blob := dictGetD d "page_state_blob" .none
  let page_state ← if page_state_blob.truthy then
      match page_state_blob with
      | .blob bs => do
        let pr ← PickleReader.init? bs
        let resPS ← PageState.from_pickle fuel pr
        pure (some resPS.1)
      | _ => throw .typeError
    else pure Option.none
  let transition ← match dictGetD d "transition_type" .none with
    | .int v => ChromeTransition.init v
    | _ => throw .typeError
  pure ⟨dictGetD d "index" .none, dictGetD d "url" .none,
    dictGetD d "title" .none, page_state, transition,
    dictGetD d "type_mask" .none, dictGetD d "referrer_url" .none,
    dictGetD d "referrer_policy" .none,
    dictGetD d "original_request_url" .none,
    dictGetD d "is_overriding_user_agent" (.bool false),
    dictGetD d "timestamp" .none, dictGetD d "search_terms" .none,
    dictGetD d "http_status_code" (.int 0)⟩

/-- Python `NavigationEntry.from_pickle`: the fixed field list read through the
read-into-mapping helper, then `NavigationEntry.__init__` on the mapping. -/
def NavigationEntry.from_pickle (fuel : Nat) (r : PickleReader) :
    Except PyErr NavigationEntry := do
  let resD ← deserialise_into_dict r NavigationEntry.fromPickleFields false
  NavigationEntry.ofDict fuel resD.1

/-- Python `read_tab_restore_command` (`Chrome-SNSS-Parse-OS.py`): wrap the rest of
the command payload as a pickle, read the tab id int32, then one
`NavigationEntry`. -/
def read_tab_restore_command (fuel : Nat) (s : ByteStream) :
    Except PyErr (Current × NavigationEntry) := do
  let resAll := s.read s.remaining
  let pr ← PickleReader.init? resAll.1
  let resT := pr.read_int
  let tab_id := resT.2.current
  let entry ← NavigationEntry.from_pickle fuel resT.2
  pure (tab_id, entry)

/-- The three outcomes `read_navigation_command` can produce: `None` at a
clean end of stream, `(False, None)` for a skipped command, or
`(True, (tab_id, entry))` for a tab-restore command. -/
inductive NavCommandOutcome where
  | eof
  | skipped
  | tab (tab_id : Current) (entry : NavigationEntry)

/-- Python `read_navigation_command`: a 2-byte LE command length (a short read here
is a clean end of stream), then exactly that many payload bytes (a short read
here is a fatal `SsnsError`); payload byte 0 is the command id, ids 1 and 6
carry a tab-restore payload. -/
def read_navigation_command (fuel : Nat) (s : ByteStream) :
    Except PyErr (NavCommandOutcome × ByteStream) := do
  let resSz := s.read 2
  if resSz.1.length < 2 then pure (.eof, resSz.2)
  else
    let command_size := decodeU16 resSz.1
    let resPay := resSz.2.read command_size
    if resPay.1.length < command_size then throw .ssnsError
    else
      match resPay.1 with
      | [] => throw .indexError
      | command_id :: _ =>
        if command_id = 1 ∨ command_id = 6 then do
          let tr ← read_tab_restore_command fuel ⟨resPay.1, 1⟩
          pure (.tab tr.1 tr.2, resPay.2)
        else pure (.skipped, resPay.2)

/-- Python `iter_navigation_commands`, with the lazy sequence materialised as the
list of yielded `(tab_id, entry)` pairs.  `fuel` bounds the loop (each
Python iteration consumes at least two bytes). -/
def iter_navigation_commands (fuel : Nat) (s : ByteStream) :
    Except PyErr (List (Current × NavigationEntry)) :=
  match fuel with
  | 0 => .error .recursionLimit
  | fuel + 1 => do
    let res ← read_navigation_command fuel s
    match res.1 with
    | .eof => pure []
    | .skipped => iter_navigation_commands fuel res.2
    | .tab tab_id entry => do
      let rest ← iter_navigation_commands fuel res.2
      pure ((tab_id, entry) :: rest)

/-- The 4-byte SNSS magic literal. -/
def snssMagic : List Nat := [0x53, 0x4E, 0x53, 0x53]

/-- The header validation and command loop of `main` (lines 134-147 of
`Chrome-SNSS-Parse-OS.py`), with the out-of-scope CSV plumbing dropped:
`struct.unpack("<4si", f.read(8))` (a short header is a `struct.error`),
a fatal exit on a magic mismatch, a reported-but-non-fatal version mismatch
(the returned flag), then the command stream. -/
def mainParse (fuel : Nat) (data : List Nat) :
    Except PyErr (Bool × List (Current × NavigationEntry)) := do
  let resH := ByteStream.read ⟨data, 0⟩ 8
  if resH.1.length ≠ 8 then throw .structError
  else
    let magic := resH.1.take 4
    let version := decodeI32 (resH.1.drop 4)
    if magic ≠ snssMagic then throw .invalidSnssMagic
    else do
      let entries ← iter_navigation_commands fuel resH.2
      pure (version ≠ 1, entries)

/-- The Blink form-state magic marker compared against `obj[0]`. -/
def blinkMagic : String := "\n\r?% Blink serialized form state version 9 \n\r=&"

/-- Python `int(token)` on a text token: optional surrounding whitespace, an
optional sign, then at least one ASCII digit; anything else is a
`ValueError`. -/
def pyInt (s : String) : Except PyErr Int :=
  let t := s.trim
  let core := if t.startsWith "-" ∨ t.startsWith "+" then t.drop 1 else t
  if core.length > 0 ∧ core.all (fun c => c.isDigit) then
    let n : Nat := core.foldl (fun acc c => acc * 10 + (c.toNat - 48)) 0
    .ok (if t.startsWith "-" then -(n : Int) else (n : Int))
  else .error .intParseError

/-- The accumulated form-state mapping: form id to field key `(name, type)`
to value list, all in insertion order. -/
abbrev FormStateMap := List (String × List ((String × String) × List String))

/-- Python `result.setdefault(form_key, {})`. -/
def formSetdefault (m : FormStateMap) (k : String) : FormStateMap :=
  if m.any (fun p => p.1 = k) then m else m ++ [(k, [])]

/-- Python `result[form_key].setdefault((name, type), []); values.append(v)...`:
append `vs` to the list under `key` in form `k`, creating entries as
`setdefault` does. -/
def formAppendValues (m : FormStateMap) (k : String) (key : String × String)
    (vs : List String) : FormStateMap :=
  m.map (fun p =>
    if p.1 = k then
      (p.1,
        if p.2.any (fun q => q.1 = key) then
          p.2.map (fun q => if q.1 = key then (q.1, q.2 ++ vs) else q)
        else p.2 ++ [(key, vs)])
    else p)

/-- The inner item loop of `parse_blink_form_state`: for each of `n` items
read a field name, a field type, a value count and then the values; running
out of tokens raises `StopIteration`. -/
def blinkItemsLoop (form_key : String) :
    Nat → List String → FormStateMap → Except PyErr (List String × FormStateMap)
  | 0, toks, m => .ok (toks, m)
  | n + 1, toks, m => do
    match toks with
    | field_name :: field_type :: countTok :: rest => do
      let fc ← pyInt countTok
      if rest.length < fc.toNat then throw .stopIteration
      else
        let vals := rest.take fc.toNat
        blinkItemsLoop form_key n (rest.drop fc.toNat)
          (formAppendValues m form_key (field_name, field_type) vals)
    | _ => throw .stopIteration

/-- The outer form loop of `parse_blink_form_state`: a form id token (clean
stop when the tokens are exhausted here), an item count, then the items. -/
def blinkFormsLoop : Nat → List String → FormStateMap → Except PyErr FormStateMap
  | 0, _, _ => .error .recursionLimit
  | _ + 1, [], m => .ok m
  | fuel + 1, form_key :: toks, m => do
    let m := formSetdefault m form_key
    match toks with
    | countTok :: rest => do
      let n ← pyInt countTok
      let resI ← blinkItemsLoop form_key n.toNat rest m
      blinkFormsLoop fuel resI.1 resI.2
    | [] => throw .stopIteration

/-- Python `parse_blink_form_state`: the first element must be exactly the Blink
magic marker (otherwise a `ValueError` is raised); the remaining elements
form a flat token stream consumed greedily. -/
def parse_blink_form_state (obj : List String) : Except PyErr FormStateMap :=
  match obj with
  | [] => .error .formStateTooShort
  | magic :: rest =>
    if magic ≠ blinkMagic then .error .notBlinkFormState
    else blinkFormsLoop (rest.length + 1) rest []

/-- Modelled from the spec (section 4.5): the 13-entry field list the
specification gives for `NavigationEntry`, used to compare the specified
schema against the one in the source. -/
def specNavigationEntryFields : List (String × PickleType) :=
  [("index", .Int32),
   ("url", .String),
   ("title", .String16),
   ("page_state_blob", .Blob),
   ("transition_type", .Int32),
   ("type_mask", .Int32),
   ("referrer_url", .String),
   ("referrer_policy", .Int32),
   ("original_request_url", .String),
   ("is_overriding_user_agent", .Bool),
   ("timestamp", .DateTime),
   ("search_terms", .String16),
   ("http_status_code", .Int32)]

/-- The computation does not fail with the invalid-PageState-version error.
Used to show that a version inside `[MIN_VERSION, CURRENT_VERSION]` passes
the gate: no later stage of the decode can raise that particular error. -/
@[reducible] def NoIV {α : Type} (x : Except PyErr α) : Prop :=
  x ≠ .error .invalidPageStateVersion

/-! Theorems: helper lemmas first, then one theorem per claim. -/

theorem le_read_fst_length_iff (s : ByteStream) (n k : Nat) (hk : k ≤ n) :
    k ≤ (s.read n).1.length ↔ k ≤ s.remaining := by
  rw [s.read_fst_length n, le_min_iff]
  exact and_iff_right hk

theorem read_fst_length_eq_iff (s : ByteStream) (n : Nat) :
    (s.read n).1.length = n ↔ n ≤ s.remaining := by
  rw [s.read_fst_length n]
  omega

/-- Python `read_short` unravelled: success exactly when two bytes remain, the value
from the first two bytes at the cursor, the cursor advanced by however many
of the four requested bytes existed. -/
theorem read_short_eq (r : PickleReader) :
    r.read_short =
      if 2 ≤ r.stream.remaining then
        (true, ⟨(r.stream.read 4).2, r.pickle_length,
          .int (decodeI16 (r.stream.data.drop r.stream.pos)), r.length⟩)
      else (false, ⟨(r.stream.read 4).2, r.pickle_length, .none, r.length⟩) := by
  have hc := le_read_fst_length_iff r.stream 4 2 (by omega)
  have hval : decodeI16 ((r.stream.read 4).1) =
      decodeI16 (r.stream.data.drop r.stream.pos) := by
    simp [decodeI16, ByteStream.read_fst, List.take_take]
  unfold PickleReader.read_short PickleReader.readRawI16
  by_cases h2 : 2 ≤ r.stream.remaining <;> simp [hc, hval, h2]

/-- Python `read_ushort` unravelled, as for `read_short`. -/
theorem read_ushort_eq (r : PickleReader) :
    r.read_ushort =
      if 2 ≤ r.stream.remaining then
        (true, ⟨(r.stream.read 4).2, r.pickle_length,
          .int ((decodeU16 (r.stream.data.drop r.stream.pos) : Int)), r.length⟩)
      else (false, ⟨(r.stream.read 4).2, r.pickle_length, .none, r.length⟩) := by
  have hc := le_read_fst_length_iff r.stream 4 2 (by omega)
  have hval : decodeU16 ((r.stream.read 4).1) =
      decodeU16 (r.stream.data.drop r.stream.pos) := by
    simp [decodeU16, ByteStream.read_fst, List.take_take]
  unfold PickleReader.read_ushort PickleReader.readRawU16
  by_cases h2 : 2 ≤ r.stream.remaining <;> simp [hc, hval, h2]

/-- C1.  The claim states that `ChromeTransition(-1)` does not throw.  It
does: the unsigned reinterpretation of `-1` is `0xFFFFFFFF`, whose low byte
`0xFF` is not among the 11 mapped core kinds, so the table lookup raises a
`KeyError`. -/
theorem transition_minus_one_raises :
    ChromeTransition.init (-1) = .error .keyError := by rfl

/-- C1 (amended).  For the raw 32-bit value `-1` the decoder throws a
key-lookup error, because the low byte `0xFF` of the unsigned
reinterpretation `0xFFFFFFFF` is unmapped in the core table.  The qualifier
half of the claim holds: for the high bits `0xFFFFFF00` over a mapped core
byte (raw value `-256`, low byte `0` = `Link`) the full nine-qualifier set is
returned, in table order. -/
theorem transition_minus_one_amended :
    ChromeTransition.init (-1) = .error .keyError ∧
    ChromeTransition.init (-256) =
      .ok ⟨-256, "Link",
        ["Blocked", "ForwardBack", "FromAddressBar", "HomePage", "FromApi",
         "ChainStart", "ChainEnd", "ClientRedirect", "ServerRedirect"]⟩ := by
  constructor
  · rfl
  · rfl

/-- C2.  The claim states that `NavigationEntry.from_pickle` reads exactly
the 13 listed fields and nothing more.  The field list in the source has a
fourteenth entry. -/
theorem navigation_fields_not_spec_list :
    NavigationEntry.fromPickleFields ≠ specNavigationEntryFields := by decide

/-- C2 (amended).  Decoding a `NavigationEntry` reads the 13 fields listed in
the specification followed by one additional trailing field — a second
`referrer_policy` int32, which overwrites the earlier value in the mapping
when its read succeeds — all via the read-into-mapping helper. -/
theorem navigation_fields_amended :
    NavigationEntry.fromPickleFields =
      specNavigationEntryFields ++ [("referrer_policy", PickleType.Int32)] ∧
    ∀ (fuel : Nat) (r : PickleReader),
      NavigationEntry.from_pickle fuel r =
        deserialise_into_dict r NavigationEntry.fromPickleFields false >>=
          fun resD => NavigationEntry.ofDict fuel resD.1 := by
  exact ⟨by decide, fun _ _ => rfl⟩

/-- C3.  The claim states that a document-state list whose first element is
not the magic marker raises no error.  It does raise: `ValueError("Not a
Blink serialized form state version 9")`. -/
theorem blink_non_magic_raises :
    parse_blink_form_state ["x"] = .error .notBlinkFormState := by rfl

/-- C3 (amended).  For every document-state string list whose first element
is not exactly the magic marker (which is 47 characters long, not 44),
`parse_blink_form_state` raises a `ValueError`; the caller invokes the
decoder on every non-empty document state without catching it, so the field
is not left opaque — the error propagates. -/
theorem blink_non_magic_amended (s : String) (rest : List String)
    (h : s ≠ blinkMagic) :
    parse_blink_form_state (s :: rest) = .error .notBlinkFormState ∧
    blinkMagic.length = 47 := by
  refine ⟨?_, by decide⟩
  simp only [parse_blink_form_state]
  rw [if_pos h]

theorem blink_non_magic_amended_witness :
    parse_blink_form_state ["x", "y"] = .error .notBlinkFormState :=
  (blink_non_magic_amended "x" ["y"] (by decide)).1

/-- C4.  A `PickleReader` over a buffer with at least the 4 length-prefix
bytes constructs successfully exactly when the little-endian int32 prefix
equals the buffer length minus 4, and every mismatch fails with the
length-framing `ValueError`. -/
theorem pickle_reader_framing (blob : List Nat) (h4 : 4 ≤ blob.length) :
    ((∃ r, PickleReader.init? blob = .ok r) ↔
      decodeI32 (blob.take 4) = (blob.length : Int) - 4) ∧
    (decodeI32 (blob.take 4) ≠ (blob.length : Int) - 4 →
      PickleReader.init? blob = .error .pickleLengthError) := by
  have hlen : ((ByteStream.read ⟨blob, 0⟩ 4).1).length = 4 := by
    rw [ByteStream.read_fst_length]
    simp [ByteStream.remaining]
    omega
  have hfst : (ByteStream.read ⟨blob, 0⟩ 4).1 = blob.take 4 := by
    simp [ByteStream.read_fst]
  unfold PickleReader.init?
  rw [if_pos hlen, hfst]
  constructor
  · constructor
    · rintro ⟨r, hr⟩
      by_cases hd : (blob.length : Int) - 4 ≠ decodeI32 (blob.take 4)
      · rw [if_pos hd] at hr
        exact absurd hr (by simp)
      · omega
    · intro hEq
      rw [if_neg (by omega)]
      exact ⟨_, rfl⟩
  · intro hNe
    rw [if_pos (by omega)]

theorem pickle_reader_framing_witness :
    ((∃ r, PickleReader.init? [1, 0, 0, 0, 9] = .ok r) ↔
      decodeI32 ([1, 0, 0, 0, 9].take 4) = (([1, 0, 0, 0, 9] : List Nat).length : Int) - 4) ∧
    PickleReader.init? [2, 0, 0, 0, 9] = .error .pickleLengthError := by
  constructor
  · exact (pickle_reader_framing [1, 0, 0, 0, 9] (by decide)).1
  · exact (pickle_reader_framing [2, 0, 0, 0, 9] (by decide)).2 (by decide)

/-- C10.  The claim states that every 16-bit read consumes exactly 4 bytes.
On this concretely constructed record only two bytes remain after the header;
`read_short` succeeds, takes the value `0x1234` from them, and advances the
cursor by 2, not 4. -/
theorem read16_tail_counterexample :
    PickleReader.init? [2, 0, 0, 0, 52, 18] =
      .ok ⟨⟨[2, 0, 0, 0, 52, 18], 4⟩, 2, .none, 6⟩ ∧
    (PickleReader.read_short ⟨⟨[2, 0, 0, 0, 52, 18], 4⟩, 2, .none, 6⟩).1 = true ∧
    (PickleReader.read_short ⟨⟨[2, 0, 0, 0, 52, 18], 4⟩, 2, .none, 6⟩).2.current =
      .int 4660 ∧
    (PickleReader.read_short ⟨⟨[2, 0, 0, 0, 52, 18], 4⟩, 2, .none, 6⟩).2.stream.pos ≠
      4 + 4 := by
  refine ⟨rfl, ?_, ?_, ?_⟩ <;> decide

/-- C10 (amended).  Each 16-bit read (`read_short`, `read_ushort`) requests
4 bytes and consumes `min 4 remaining` from the record's stream; it succeeds
exactly when at least 2 bytes remain, taking its value from the first 2
bytes; whenever at least 4 bytes remain it consumes exactly 4, keeping the
cursor in 4-byte steps. -/
theorem read16_amended (r : PickleReader) :
    ((r.read_short).2.stream.pos = r.stream.pos + min 4 r.stream.remaining ∧
      ((r.read_short).1 = true ↔ 2 ≤ r.stream.remaining) ∧
      (2 ≤ r.stream.remaining → (r.read_short).2.current =
        .int (decodeI16 (r.stream.data.drop r.stream.pos))) ∧
      (4 ≤ r.stream.remaining → (r.read_short).2.stream.pos = r.stream.pos + 4)) ∧
    ((r.read_ushort).2.stream.pos = r.stream.pos + min 4 r.stream.remaining ∧
      ((r.read_ushort).1 = true ↔ 2 ≤ r.stream.remaining) ∧
      (2 ≤ r.stream.remaining → (r.read_ushort).2.current =
        .int ((decodeU16 (r.stream.data.drop r.stream.pos) : Int))) ∧
      (4 ≤ r.stream.remaining → (r.read_ushort).2.stream.pos = r.stream.pos + 4)) := by
  have hpos := r.stream.read_snd_pos 4
  rw [read_short_eq, read_ushort_eq]
  by_cases h2 : 2 ≤ r.stream.remaining
  · rw [if_pos h2, if_pos h2]
    refine ⟨⟨hpos, by simp [h2], fun _ => rfl, fun h4 => ?_⟩,
      hpos, by simp [h2], fun _ => rfl, fun h4 => ?_⟩ <;>
      · rw [hpos]
        omega
  · rw [if_neg h2, if_neg h2]
    refine ⟨⟨hpos, by simp [h2], fun h => absurd h h2, fun h4 => ?_⟩,
      hpos, by simp [h2], fun h => absurd h h2, fun h4 => ?_⟩ <;> omega

theorem read_bool_fail_current (r r' : PickleReader) (h : r.read_bool = (false, r')) :
    r'.current = .none := by
  unfold PickleReader.read_bool at h
  rcases hr : PickleReader.readRawI32 r.stream with ⟨o, s⟩
  rw [hr] at h
  cases o with
  | some v => simp at h
  | none =>
    simp at h
    rw [← h]

/-- C8.  When the `HttpBody` presence-boolean read fails because the record
is exhausted, the current-value slot is cleared and `HttpBody.from_pickle`
returns `None` with no error; the result is the same `(None, reader)` pair
an explicit `false` presence boolean produces. -/
theorem http_body_exhaustion_is_absent (v : Int) (r r' : PickleReader) :
    (r.read_bool = (false, r') →
      r'.current = .none ∧ HttpBody.from_pickle r v = .ok (Option.none, r')) ∧
    (r.read_bool = (true, r') → r'.current = .bool false →
      HttpBody.from_pickle r v = .ok (Option.none, r')) := by
  constructor
  · intro hfail
    have hc := read_bool_fail_current r r' hfail
    refine ⟨hc, ?_⟩
    unfold HttpBody.from_pickle
    rw [hfail]
    simp [hc, Current.truthy, pure, Except.pure]
  · intro hsucc hcur
    unfold HttpBody.from_pickle
    rw [hsucc]
    simp [hcur, Current.truthy, pure, Except.pure]

theorem http_body_exhaustion_is_absent_witness :
    HttpBody.from_pickle ⟨⟨[0, 0, 0, 0], 4⟩, 0, .none, 4⟩ 15 =
      .ok (Option.none, ⟨⟨[0, 0, 0, 0], 4⟩, 0, .none, 4⟩) :=
  ((http_body_exhaustion_is_absent 15 ⟨⟨[0, 0, 0, 0], 4⟩, 0, .none, 4⟩
    ⟨⟨[0, 0, 0, 0], 4⟩, 0, .none, 4⟩).1 (by decide)).2

/-- C7.  In the container command stream, a short read (fewer than 2 bytes)
at the command-length position is a clean end of stream — the iterator stops
with no error — while a payload shorter than the declared command length is
the fatal `SsnsError`, a distinct outcome. -/
theorem command_eof_vs_truncation (fuel : Nat) (s : ByteStream) :
    (s.remaining < 2 →
      (∃ s', read_navigation_command fuel s = .ok (.eof, s')) ∧
        iter_navigation_commands (fuel + 1) s = .ok []) ∧
    (2 ≤ s.remaining →
      s.remaining - 2 < decodeU16 ((s.data.drop s.pos).take 2) →
      read_navigation_command fuel s = .error .ssnsError) := by
  constructor
  · intro hlt
    have hlen : ((s.read 2).1).length < 2 := by
      rw [s.read_fst_length 2]
      omega
    have hcmd : read_navigation_command fuel s = .ok (.eof, (s.read 2).2) := by
      unfold read_navigation_command
      rw [if_pos hlen]
      rfl
    refine ⟨⟨_, hcmd⟩, ?_⟩
    unfold iter_navigation_commands
    rw [hcmd]
    rfl
  · intro h2 hsz
    have hlen : ¬ ((s.read 2).1).length < 2 := by
      rw [s.read_fst_length 2]
      omega
    have hsize : decodeU16 ((s.read 2).1) = decodeU16 ((s.data.drop s.pos).take 2) := by
      rw [ByteStream.read_fst]
    have h2' : 2 ≤ s.data.length - s.pos := h2
    have hrem : ((s.read 2).2).remaining = s.remaining - 2 := by
      simp only [ByteStream.read, ByteStream.remaining, List.length_take,
        List.length_drop]
      omega
    have hpay : (((s.read 2).2).read (decodeU16 ((s.read 2).1))).1.length <
        decodeU16 ((s.read 2).1) := by
      rw [ByteStream.read_fst_length, hrem, hsize]
      omega
    unfold read_navigation_command
    rw [if_neg hlen, if_pos hpay]
    rfl

theorem command_eof_vs_truncation_witness :
    (∃ s', read_navigation_command 1 ⟨[9], 0⟩ = .ok (.eof, s')) ∧
    iter_navigation_commands 2 ⟨[9], 0⟩ = .ok [] ∧
    read_navigation_command 1 ⟨[5, 0, 1], 0⟩ = .error .ssnsError := by
  refine ⟨((command_eof_vs_truncation 1 ⟨[9], 0⟩).1 (by decide)).1,
    ((command_eof_vs_truncation 1 ⟨[9], 0⟩).1 (by decide)).2,
    (command_eof_vs_truncation 1 ⟨[5, 0, 1], 0⟩).2 (by decide) (by decide)⟩

/-- C9.  A command whose declared 2-byte length is zero produces an empty
payload, and reading the command-id byte from it (`read(1)[0]`) raises an
unhandled `IndexError` — the stream neither skips the command nor ends
cleanly. -/
theorem zero_length_command_index_error (fuel : Nat) (s : ByteStream)
    (hz : (s.data.drop s.pos).take 2 = [0, 0]) :
    read_navigation_command fuel s = .error .indexError := by
  have hr : s.read 2 = ([0, 0], ⟨s.data, s.pos + 2⟩) := by
    unfold ByteStream.read
    rw [hz]
    rfl
  unfold read_navigation_command
  rw [hr]
  simp [decodeU16, leNat, ByteStream.read, throw, throwThe, MonadExceptOf.throw]

theorem noiv_ok {α : Type} (a : α) : NoIV (Except.ok a) := by simp [NoIV]

theorem noiv_pure {α : Type} (a : α) : NoIV (pure (f := Except PyErr) a) :=
  noiv_ok a

theorem noiv_error {α : Type} {e : PyErr} (h : e ≠ .invalidPageStateVersion) :
    NoIV (Except.error (α := α) e) := by simp [NoIV, h]

theorem noiv_throw {α : Type} {e : PyErr} (h : e ≠ .invalidPageStateVersion) :
    NoIV (throw e : Except PyErr α) := noiv_error h

theorem noiv_bind {α β : Type} {x : Except PyErr α} {f : α → Except PyErr β}
    (hx : NoIV x) (hf : ∀ a, NoIV (f a)) : NoIV (x >>= f) := by
  cases x with
  | ok a => exact hf a
  | error e =>
    have he : e ≠ .invalidPageStateVersion := fun h => hx (by rw [h])
    have hr : (Except.error e : Except PyErr α) >>= f = Except.error e := rfl
    rw [hr]
    exact noiv_error he

theorem noiv_ite {α : Type} {c : Prop} [Decidable c] {x y : Except PyErr α}
    (hx : NoIV x) (hy : NoIV y) : NoIV (if c then x else y) := by
  split
  · exact hx
  · exact hy

theorem noiv_read_str (r : PickleReader) : NoIV r.read_str := by
  unfold PickleReader.read_str
  dsimp only
  split
  · split
    · split
      · exact noiv_ok _
      · exact noiv_error (by decide)
    · exact noiv_ok _
  · exact noiv_ok _

theorem noiv_read_str16_byte (r : PickleReader) :
    NoIV r.read_str16_with_byte_count := by
  unfold PickleReader.read_str16_with_byte_count
  dsimp only
  split
  · split
    · split
      · exact noiv_ok _
      · exact noiv_error (by decide)
    · exact noiv_ok _
  · exact noiv_ok _

theorem noiv_read_str16_char (r : PickleReader) :
    NoIV r.read_str16_with_char_count := by
  unfold PickleReader.read_str16_with_char_count
  dsimp only
  split
  · split
    · split
      · exact noiv_ok _
      · exact noiv_error (by decide)
    · exact noiv_ok _
  · exact noiv_ok _

theorem noiv_read_timestamp (r : PickleReader) : NoIV r.read_timestamp := by
  unfold PickleReader.read_timestamp
  split
  · split
    · exact noiv_ok _
    · exact noiv_error (by decide)
  · exact noiv_ok _

theorem noiv_read_double_pickle (r : PickleReader) :
    NoIV (read_double_from_page_state_pickle r) := by
  unfold read_double_from_page_state_pickle
  dsimp only
  split
  · split
    · exact noiv_pure _
    · exact noiv_error (by decide)
  · exact noiv_error (by decide)

theorem noiv_rsv_loop (n : Nat) : ∀ (r : PickleReader) (acc : List Current),
    NoIV (readStringVectorLoop n r acc) := by
  induction n with
  | zero => intro r acc; exact noiv_ok _
  | succ k ih =>
    intro r acc
    unfold readStringVectorLoop
    refine noiv_bind (noiv_read_str16_byte r) fun a => ?_
    dsimp only
    split
    · exact noiv_throw (by decide)
    · exact ih _ _

theorem noiv_rsv (r : PickleReader) :
    NoIV (read_string_vector_from_page_state_pickle r) := by
  unfold read_string_vector_from_page_state_pickle
  dsimp only
  split
  · exact noiv_throw (by decide)
  · split
    · exact noiv_rsv_loop _ _ _
    · exact noiv_throw (by decide)

theorem noiv_http_elements (version : Int) (n : Nat) :
    ∀ (r : PickleReader) dat files blobs,
      NoIV (httpBodyElementsLoop version n r dat files blobs) := by
  induction n with
  | zero => intro r dat files blobs; exact noiv_ok _
  | succ k ih =>
    intro r dat files blobs
    unfold httpBodyElementsLoop
    dsimp only
    split
    · split
      · split
        · exact ih _ _ _ _
        · exact ih _ _ _ _
      · split
        · split
          · refine noiv_bind (noiv_read_str16_byte _) fun y => ?_
            dsimp only
            refine noiv_bind (noiv_read_double_pickle _) fun m => ?_
            exact ih _ _ _ _
          · refine noiv_bind (noiv_read_str _) fun y => ?_
            dsimp only
            refine noiv_bind (noiv_read_double_pickle _) fun m => ?_
            exact ih _ _ _ _
        · split
          · refine noiv_bind (noiv_read_str _) fun y => ?_
            dsimp only
            split
            · exact ih _ _ _ _
            · exact ih _ _ _ _
          · exact noiv_throw (by decide)
    · exact noiv_throw (by decide)

theorem noiv_http_body (r : PickleReader) (version : Int) :
    NoIV (HttpBody.from_pickle r version) := by
  unfold HttpBody.from_pickle
  dsimp only
  split
  · exact noiv_pure _
  · split
    · refine noiv_bind (noiv_http_elements _ _ _ _ _ _) fun a => ?_
      dsimp only
      split
      · exact noiv_pure _
      · exact noiv_pure _
    · exact noiv_throw (by decide)

theorem noiv_frame_state : ∀ (fuel : Nat) (r : PickleReader) (version : Int)
    (is_top : Bool), NoIV (FrameState.from_pickle fuel r version is_top) := by
  intro fuel
  induction fuel with
  | zero =>
    intro r version is_top
    rw [FrameState.from_pickle]
    exact noiv_error (by decide)
  | succ n ih =>
    have hch : ∀ (m : Nat) (r : PickleReader) (v : Int),
        NoIV (FrameState.readChildren n m r v) := by
      intro m
      induction m with
      | zero =>
        intro r v
        rw [FrameState.readChildren]
        exact noiv_ok _
      | succ k ihm =>
        intro r v
        rw [FrameState.readChildren]
        refine noiv_bind (ih _ _ _) fun a => ?_
        refine noiv_bind (ihm _ _) fun b => ?_
        exact noiv_pure _
    intro r version is_top
    rw [FrameState.from_pickle]
    dsimp only
    refine noiv_bind (noiv_read_str16_byte _) fun resU => ?_
    dsimp only
    refine noiv_bind ?_ fun r1 => ?_
    · exact noiv_ite (noiv_bind (noiv_read_str16_byte _) fun a => noiv_pure _)
        (noiv_pure _)
    dsimp only
    refine noiv_bind (noiv_read_str16_byte _) fun resT => ?_
    dsimp only
    refine noiv_bind ?_ fun r2 => ?_
    · exact noiv_ite
        (noiv_bind (noiv_read_str16_byte _) fun a =>
          noiv_bind (noiv_read_str16_byte _) fun b =>
            noiv_bind (noiv_read_str16_byte _) fun c =>
              noiv_bind (noiv_read_double_pickle _) fun d => noiv_pure _)
        (noiv_pure _)
    dsimp only
    refine noiv_bind (noiv_read_str16_byte _) fun resR => ?_
    dsimp only
    refine noiv_bind (noiv_rsv _) fun resD => ?_
    dsimp only
    refine noiv_bind (noiv_read_double_pickle _) fun resPS => ?_
    dsimp only
    refine noiv_bind ?_ fun pinch => ?_
    · exact noiv_ite
        (noiv_bind (noiv_read_double_pickle _) fun a =>
          noiv_bind (noiv_read_double_pickle _) fun b => noiv_pure _)
        (noiv_pure _)
    dsimp only
    refine noiv_bind ?_ fun so => ?_
    · exact noiv_ite (noiv_bind (noiv_read_str16_byte _) fun a => noiv_pure _)
        (noiv_pure _)
    dsimp only
    refine noiv_bind (noiv_http_body _ _) fun resHB => ?_
    dsimp only
    refine noiv_bind (noiv_read_str16_byte _) fun resCT => ?_
    dsimp only
    refine noiv_bind ?_ fun r3 => ?_
    · exact noiv_ite (noiv_bind (noiv_read_str16_byte _) fun a => noiv_pure _)
        (noiv_pure _)
    dsimp only
    refine noiv_bind ?_ fun r4 => ?_
    · exact noiv_ite
        (noiv_bind (noiv_read_double_pickle _) fun a => noiv_pure _)
        (noiv_pure _)
    dsimp only
    split
    · refine noiv_bind (hch _ _ _) fun resCh => ?_
      exact noiv_pure _
    · exact noiv_throw (by decide)

/-- C5.  `PageState.from_pickle` dispatches on the version int32: `-1` reads
one string and yields the legacy URL-only result (no referenced files, no
frame tree); a version in `[11, 23]` passes the gate — no later stage of the
decode can produce the invalid-version error; every other version fails with
exactly that fatal error. -/
theorem pagestate_version_gate (fuel : Nat) (r r₁ : PickleReader) (v : Int)
    (hread : r.read_int = (true, r₁)) (hcur : r₁.current = .int v) :
    (v = -1 → ∀ (b : Bool) (r₂ : PickleReader), r₁.read_str = .ok (b, r₂) →
      PageState.from_pickle fuel r =
        .ok (⟨Option.none, Option.none, Option.none, r₂.current⟩, r₂)) ∧
    (11 ≤ v → v ≤ 23 →
      PageState.from_pickle fuel r ≠ .error .invalidPageStateVersion) ∧
    (v ≠ -1 → (v < 11 ∨ 23 < v) →
      PageState.from_pickle fuel r = .error .invalidPageStateVersion) := by
  unfold PageState.from_pickle
  rw [hread]
  simp only [Bool.not_true, Bool.false_eq_true, if_false, hcur]
  refine ⟨?_, ?_, ?_⟩
  · intro hv b r₂ hstr
    rw [if_pos hv, hstr]
    rfl
  · intro h11 h23
    rw [if_neg (show ¬ v = -1 by omega),
      if_neg (show ¬ (v > PageState.CURRENT_VERSION ∨ v < PageState.MIN_VERSION) by
        simp only [PageState.CURRENT_VERSION, PageState.MIN_VERSION]
        omega)]
    refine noiv_bind ?_ fun a => ?_
    · exact noiv_ite (noiv_rsv _) (noiv_pure _)
    dsimp only
    refine noiv_bind (noiv_frame_state _ _ _ _) fun b => ?_
    exact noiv_pure _
  · intro hne hout
    rw [if_neg hne,
      if_pos (show v > PageState.CURRENT_VERSION ∨ v < PageState.MIN_VERSION by
        simp only [PageState.CURRENT_VERSION, PageState.MIN_VERSION]
        omega)]
    rfl

theorem pagestate_version_gate_witness :
    PageState.from_pickle 1 ⟨⟨[4, 0, 0, 0, 24, 0, 0, 0], 4⟩, 4, .none, 8⟩ =
      .error .invalidPageStateVersion :=
  (pagestate_version_gate 1 ⟨⟨[4, 0, 0, 0, 24, 0, 0, 0], 4⟩, 4, .none, 8⟩
    ⟨⟨[4, 0, 0, 0, 24, 0, 0, 0], 8⟩, 4, .int 24, 8⟩ 24 rfl rfl).2.2
    (by decide) (by decide)

/-- C6.  The SNSS header checks are asymmetric: any buffer whose first four
bytes differ from the `SNSS` magic fails fatally and yields no entries, while
a version other than 1 behind a good magic is merely reported (the flag in
the result) and command-stream parsing continues from offset 8. -/
theorem snss_header_asymmetry (fuel : Nat) (data : List Nat) :
    (data.take 4 ≠ snssMagic → ∃ e, mainParse fuel data = .error e) ∧
    (8 ≤ data.length → data.take 4 = snssMagic →
      decodeI32 ((data.drop 4).take 4) ≠ 1 →
      mainParse fuel data =
        iter_navigation_commands fuel ⟨data, 8⟩ >>= fun es => pure (true, es)) ∧
    (8 ≤ data.length → data.take 4 = snssMagic →
      decodeI32 ((data.drop 4).take 4) = 1 →
      mainParse fuel data =
        iter_navigation_commands fuel ⟨data, 8⟩ >>= fun es => pure (false, es)) := by
  by_cases hlen : 8 ≤ data.length
  · have hfst : (ByteStream.read ⟨data, 0⟩ 8).1 = data.take 8 := rfl
    have hlen8 : (ByteStream.read ⟨data, 0⟩ 8).1.length = 8 := by
      rw [ByteStream.read_fst_length]
      simp only [ByteStream.remaining]
      omega
    have hsnd : (ByteStream.read ⟨data, 0⟩ 8).2 = ⟨data, 8⟩ := by
      unfold ByteStream.read
      simp only [List.length_take, List.length_drop]
      congr 1
      omega
    have hmagic4 : (ByteStream.read ⟨data, 0⟩ 8).1.take 4 = data.take 4 := by
      rw [hfst, List.take_take]
      norm_num
    have hver : decodeI32 ((ByteStream.read ⟨data, 0⟩ 8).1.drop 4) =
        decodeI32 ((data.drop 4).take 4) := by
      rw [hfst, List.drop_take]
    refine ⟨?_, ?_, ?_⟩
    · intro hm
      unfold mainParse
      rw [if_neg (by simp [hlen8])]
      rw [if_pos (by rw [hmagic4]; exact hm)]
      exact ⟨_, rfl⟩
    · intro _ hm hv
      unfold mainParse
      rw [if_neg (by simp [hlen8])]
      rw [if_neg (by rw [hmagic4]; simp [hm])]
      rw [hsnd, hver]
      simp [hv]
    · intro _ hm hv
      unfold mainParse
      rw [if_neg (by simp [hlen8])]
      rw [if_neg (by rw [hmagic4]; simp [hm])]
      rw [hsnd, hver]
      simp [hv]
  · have hne : (ByteStream.read ⟨data, 0⟩ 8).1.length ≠ 8 := by
      rw [ByteStream.read_fst_length]
      simp only [ByteStream.remaining]
      omega
    refine ⟨?_, fun h => absurd h hlen, fun h => absurd h hlen⟩
    intro _
    unfold mainParse
    rw [if_pos hne]
    exact ⟨_, rfl⟩

theorem snss_header_asymmetry_witness :
    (∃ e, mainParse 1 [0, 0, 0, 0, 1, 0, 0, 0] = .error e) ∧
    mainParse 1 [0x53, 0x4E, 0x53, 0x53, 2, 0, 0, 0] = .ok (true, []) ∧
    mainParse 1 [0x53, 0x4E, 0x53, 0x53, 1, 0, 0, 0] = .ok (false, []) := by
  refine ⟨(snss_header_asymmetry 1 [0, 0, 0, 0, 1, 0, 0, 0]).1 (by decide), ?_, ?_⟩
  · have h := (snss_header_asymmetry 1 [0x53, 0x4E, 0x53, 0x53, 2, 0, 0, 0]).2.1
      (by decide) (by decide) (by decide)
    rw [h]
    rfl
  · have h := (snss_header_asymmetry 1 [0x53, 0x4E, 0x53, 0x53, 1, 0, 0, 0]).2.2
      (by decide) (by decide) (by decide)
    rw [h]
    rfl

theorem zero_length_command_index_error_witness :
    read_navigation_command 1 ⟨[0, 0], 0⟩ = .error .indexError :=
  zero_length_command_index_error 1 ⟨[0, 0], 0⟩ (by decide)

theorem read16_amended_witness :
    ((PickleReader.read_short ⟨⟨[2, 0, 0, 0, 52, 18], 4⟩, 2, .none, 6⟩).1 = true ↔
      2 ≤ (ByteStream.mk [2, 0, 0, 0, 52, 18] 4).remaining) ∧
    (PickleReader.read_short ⟨⟨[2, 0, 0, 0, 52, 18], 4⟩, 2, .none, 6⟩).2.current =
      .int (decodeI16 ((ByteStream.mk [2, 0, 0, 0, 52, 18] 4).data.drop 4)) :=
  ⟨(read16_amended ⟨⟨[2, 0, 0, 0, 52, 18], 4⟩, 2, .none, 6⟩).1.2.1,
    (read16_amended ⟨⟨[2, 0, 0, 0, 52, 18], 4⟩, 2, .none, 6⟩).1.2.2.1 (by decide)⟩

end Ssns
